import Mathlib

set_option maxHeartbeats 1000000
set_option maxRecDepth 8000

/-!
Shallow embedding of `src/app.py` (a rule-based WhatsApp responder):
the text normalizer, the in-memory session store, the intent router
`trivial_intents`, the admin operations, the AI fallback adapter and the
`/whatsapp` webhook handler, together with proofs of the specification's
claims.  Machine time `time.time()` is modelled as an explicit `Nat`
parameter `now`, and Python's in-place mutation of the session dict is
modelled by explicit write-back of the updated session record into the
store (the code performs no store reads between a session mutation and
the end of the request, so this is observationally identical).
-/

namespace App

/-! ### Character helpers (Python whitespace, case folding, digits) -/

/-- Code points treated as whitespace by Python's `str.strip` / regex `\s`
on `str` (ASCII whitespace plus the Unicode whitespace characters). -/
def wsCodes : List Nat :=
  [9, 10, 11, 12, 13, 28, 29, 30, 31, 32, 133, 160, 5760,
   8192, 8193, 8194, 8195, 8196, 8197, 8198, 8199, 8200, 8201, 8202,
   8232, 8233, 8239, 8287, 12288]

def isWs (c : Char) : Bool := wsCodes.contains c.toNat

/-- `str.lower` restricted to the ASCII range (the only case mapping the
bot's inputs exercise). -/
def lowerChar (c : Char) : Char :=
  if 65 ≤ c.toNat ∧ c.toNat ≤ 90 then Char.ofNat (c.toNat + 32) else c

/-- `str.upper` restricted to the ASCII range. -/
def upperChar (c : Char) : Char :=
  if 97 ≤ c.toNat ∧ c.toNat ≤ 122 then Char.ofNat (c.toNat - 32) else c

def digitChar (d : Nat) : Char := Char.ofNat (48 + d)

def isDigitCh (c : Char) : Bool := 48 ≤ c.toNat && c.toNat ≤ 57

/-! ### List-of-characters helpers -/

/-- Left part of `str.strip`. -/
def lstripL (l : List Char) : List Char := l.dropWhile isWs

/-- Right part of `str.strip`. -/
def rstripL (l : List Char) : List Char := (l.reverse.dropWhile isWs).reverse

/-- `str.strip()`. -/
def stripL (l : List Char) : List Char := rstripL (lstripL l)

/-- `re.sub(r"\s+", " ", s)`: every maximal run of whitespace characters is
replaced by a single space.  The boolean records whether we are inside a
whitespace run whose replacement space has already been emitted. -/
def collapseAux : Bool → List Char → List Char
  | _, [] => []
  | inRun, c :: rest =>
    if isWs c then
      (if inRun then collapseAux true rest else ' ' :: collapseAux true rest)
    else c :: collapseAux false rest

/-- `str.split()` with no separator: the maximal runs of non-whitespace
characters.  `acc` is the current run, reversed. -/
def splitWsAux : List Char → List Char → List (List Char)
  | acc, [] => if acc.isEmpty then [] else [acc.reverse]
  | acc, c :: rest =>
    if isWs c then
      (if acc.isEmpty then splitWsAux [] rest else acc.reverse :: splitWsAux [] rest)
    else splitWsAux (c :: acc) rest

def containsSubL (needle : List Char) : List Char → Bool
  | [] => needle.isEmpty
  | c :: rest => needle.isPrefixOf (c :: rest) || containsSubL needle rest

/-! ### String helpers -/

/-- Python `s.strip()`. -/
def pyStrip (s : String) : String := String.mk (stripL s.data)

/-- Python slice `s[n:]` (by code points). -/
def strDropStr (s : String) (n : Nat) : String := String.mk (s.data.drop n)

/-- Python `s.startswith(p)`. -/
def pyStartsWith (s p : String) : Bool := p.data.isPrefixOf s.data

/-- `normalize` from app.py: `re.sub(r"\s+", " ", (text or "").strip()).lower()`
(`text or ""` maps a missing text to `""`, which the function already sends
to `""`). -/
def normalize (text : String) : String :=
  String.mk ((collapseAux false (stripL text.data)).map lowerChar)

/-- Python `s.upper()`. -/
def strUpper (s : String) : String := String.mk (s.data.map upperChar)

/-- Python `t.split(" ", 1)[1]`: the part after the first literal space;
`none` models the `IndexError` raised when the string has no space. -/
def splitOnceRest (s : String) : Option String :=
  match s.data.dropWhile (fun c => c != ' ') with
  | [] => none
  | _ :: rest => some (String.mk rest)

/-- Python `t.split()`. -/
def pySplit (s : String) : List String := (splitWsAux [] s.data).map String.mk

/-- Substring containment (Python's `in` on strings). -/
def containsSubStr (needle hay : String) : Bool := containsSubL needle.data hay.data

/-- Big-endian decimal digit characters of `n`; the first argument is
structural fuel so that the kernel can evaluate the definition. -/
def decDigitsCore : Nat → Nat → List Char
  | 0, _ => []
  | fuel + 1, n => if n = 0 then [] else decDigitsCore fuel (n / 10) ++ [digitChar (n % 10)]

/-- Python `str(n)` for a natural number. -/
def natRepr (n : Nat) : String :=
  if n = 0 then "0" else String.mk (decDigitsCore n n)

/-- The f-string `f"{n:05d}"`: decimal digits left-padded with zeros to
width 5. -/
def pad5 (n : Nat) : String :=
  String.mk (List.replicate (5 - (decDigitsCore n n).length) '0' ++ decDigitsCore n n)

/-! ### Data model: sessions, store, configuration -/

/-- One session dict from `SESSIONS`.  The `id` key is absent on creation
(`none`) and set by the webhook handler. -/
structure Session where
  created_at : Nat
  context : List (String × String)
  last_intent : Option String
  history : List (String × String)
  id : Option String
deriving DecidableEq

/-- The fresh dict built by `session_for` on first contact. -/
def freshSession (now : Nat) : Session :=
  { created_at := now, context := [], last_intent := none, history := [], id := none }

/-- `SESSIONS`: insertion-ordered mapping from sender identifier to session. -/
abbrev Store := List (String × Session)

def lookupStore : Store → String → Option Session
  | [], _ => none
  | (k, v) :: rest, key => if k = key then some v else lookupStore rest key

def hasKey (store : Store) (key : String) : Bool := (lookupStore store key).isSome

/-- Python dict assignment `SESSIONS[k] = v` (replace in place, else append). -/
def storeSet : Store → String → Session → Store
  | [], key, v => [(key, v)]
  | (k, w) :: rest, key, v =>
    if k = key then (key, v) :: rest else (k, w) :: storeSet rest key v

/-- Python `SESSIONS.pop(k, None)`. -/
def storePop : Store → String → Store
  | [], _ => []
  | (k, w) :: rest, key => if k = key then rest else (k, w) :: storePop rest key

abbrev nodupKeys (store : Store) : Prop := (store.map Prod.fst).Nodup

/-- Python dict assignment on the session's `context` mapping. -/
def dictSet : List (String × String) → String → String → List (String × String)
  | [], key, v => [(key, v)]
  | (k, w) :: rest, key, v =>
    if k = key then (key, v) :: rest else (k, w) :: dictSet rest key v

/-- The configuration surface: display name, admin passcode, and the AI
backend.  `backend = none` models a disabled adapter (`AI_CLIENT is None or
AI_PROVIDER is None`); `some f` models the external chat-completion call,
where `Except.error` is a raised exception and the `Option String` result
is `result.choices[0].message.content` (possibly `None`). -/
structure Config where
  app_name : String
  admin_passcode : String
  backend : Option (String → Except Unit (Option String))

/-- `session_for` from app.py: return the existing session or create and
insert a fresh one. -/
def session_for (now : Nat) (store : Store) (wa_from : String) : Session × Store :=
  match lookupStore store wa_from with
  | some s => (s, store)
  | none => (freshSession now, store ++ [(wa_from, freshSession now)])

/-! ### Static texts -/

def small_menu (cfg : Config) : String :=
  "*" ++ cfg.app_name ++ "*\n" ++
  "Type a number or keyword:\n" ++
  "1) Schemes & Eligibility\n" ++
  "2) Lodge a grievance\n" ++
  "3) Check application status\n" ++
  "4) Contact / Office hours\n" ++
  "5) Help (commands)\n" ++
  "_Tip: send ‘menu’ anytime._"

def help_text : String :=
  "Commands:\n" ++
  "• menu — main options\n" ++
  "• schemes — PMAY, JJM, SHG, etc.\n" ++
  "• status <ID> — check an application (demo)\n" ++
  "• grievance — file a grievance (demo)\n" ++
  "• stop — forget my session\n" ++
  "• admin <pass> ping|stats|reset — admin ops\n" ++
  "For general questions, reply in English/Marathi/Hindi."

def schemes_text : String :=
  "*Schemes (demo)*\n" ++
  "• PMAY-G: Rural housing support\n" ++
  "• JJM: Functional tap connection\n" ++
  "• SHG: Livelihood & credit linkages\n" ++
  "• MGNREGS: Wage employment\n" ++
  "_Reply with ‘eligibility <scheme> <your details>’ for a quick check (demo)._"

def contact_text : String :=
  "*Contact (demo)*\n" ++
  "• Zilla Parishad Helpline: 1800-000-000\n" ++
  "• Office hours: Mon–Fri 10:30–17:30\n" ++
  "• Email: help@zp.example.in\n" ++
  "_Replace with real contacts before going live._"

/-- `status_lookup` from app.py: fixed three-entry demo table, keyed by the
upper-cased application id. -/
def status_lookup (app_id : String) : String :=
  let fake : List (String × String × String) :=
    [("PMAY123", "Under review", "Verification within 7 days"),
     ("JJM456", "Approved", "Connection expected in 30 days"),
     ("SHG789", "Pending docs", "Please submit bank passbook copy")]
  match fake.lookup (strUpper app_id) with
  | none => "No record found for *" ++ app_id ++ "*. Check the ID and try again."
  | some st => "*Status for " ++ app_id ++ ":* " ++ st.1 ++ "\nNote: " ++ st.2

/-- `admin_ops` from app.py.  The store is passed explicitly (Python reads
the global `SESSIONS`); the outer `none` models an uncaught index error,
which the guards make unreachable. -/
def admin_ops (cfg : Config) (parts : List String) (store : Store) :
    Option (String × Store) :=
  if parts.length < 3 then some ("Usage: admin <passcode> <ping|stats|reset>", store)
  else
    match parts[1]? with
    | none => none
    | some given =>
      if given ≠ cfg.admin_passcode then some ("Admin: invalid passcode.", store)
      else
        match parts[2]? with
        | none => none
        | some cmd =>
          if cmd = "ping" then some ("pong ✅", store)
          else if cmd = "stats" then some ("Sessions: " ++ natRepr store.length, store)
          else if cmd = "reset" then some ("All sessions cleared.", [])
          else some ("Unknown admin command.", store)

/-- `trivial_intents` from app.py.  Returns `(reply?, session, store)`;
the outer `none` models an uncaught exception (unreachable, proved below).
The session value carries the in-place mutations of `sess`; the store
component carries the effects on the global `SESSIONS`. -/
def trivial_intents (cfg : Config) (now : Nat) (text : String) (sess : Session)
    (store : Store) : Option (Option String × Session × Store) :=
  let t := normalize text
  if t = "1" ∨ t = "schemes" ∨ t = "scheme" ∨ t = "yojana" then
    some (some schemes_text, { sess with last_intent := some "schemes" }, store)
  else if t = "2" ∨ t = "grievance" ∨ t = "complaint" then
    some (some ("*Grievance (demo)*\n" ++
      "Reply in this format:\n" ++
      "`grievance <name> <village> <issue>`\n" ++
      "Example: `grievance Priya Pal Khadakde water not reaching last mile`\n" ++
      "You’ll get a ticket ID back."),
      { sess with last_intent := some "grievance" }, store)
  else if t = "3" ∨ t = "status" then
    some (some "Send: `status <APPLICATION_ID>`\nExample: `status PMAY123`",
      { sess with last_intent := some "status" }, store)
  else if t = "4" ∨ t = "contact" then
    some (some contact_text, { sess with last_intent := some "contact" }, store)
  else if t = "5" ∨ t = "help" then
    some (some help_text, { sess with last_intent := some "help" }, store)
  else if t = "menu" ∨ t = "start" ∨ t = "hi" ∨ t = "hello" ∨ t = "namaste" ∨
      t = "नमस्ते" ∨ t = "नमस्कार" then
    some (some (small_menu cfg), { sess with last_intent := some "menu" }, store)
  else if pyStartsWith t "status " then
    match splitOnceRest t with
    | none => none
    | some rest =>
      some (some (status_lookup (pyStrip rest)),
        { sess with last_intent := some "status_lookup" }, store)
  else if pyStartsWith t "grievance " then
    let payload := pyStrip (strDropStr (pyStrip text) 10)
    if payload.length < 4 then
      some (some "Please include details: `grievance <name> <village> <issue>`",
        sess, store)
    else
      let ticket := "GRV" ++ pad5 (now % 100000)
      some (some ("Thanks. Ticket *" ++ ticket ++ "* created (demo).\n" ++
        "You’ll receive an update after initial triage."),
        { sess with last_intent := some "grievance_ticket",
                    context := dictSet sess.context "last_ticket" ticket }, store)
  else if pyStartsWith t "admin " then
    match admin_ops cfg (pySplit t) store with
    | none => none
    | some (msg, store2) => some (some msg, sess, store2)
  else if t = "stop" then
    some (some "Session cleared. Send ‘menu’ to start again.", sess,
      storePop store (sess.id.getD ""))
  else
    some (none, sess, store)

/-- `ai_answer` from app.py: empty string when no backend is configured;
otherwise the stripped content of the completion, with any raised
exception absorbed into the empty string. -/
def ai_answer (cfg : Config) (user_text : String) (_sess : Session) : String :=
  match cfg.backend with
  | none => ""
  | some callModel =>
    match callModel user_text with
    | Except.error _ => ""
    | Except.ok content => pyStrip (content.getD "")

/-- Python truthiness of `msg` in the webhook (`None` and `""` are falsy). -/
def pyFalsy : Option String → Bool
  | none => true
  | some s => s == ""

/-- `whatsapp_webhook` from app.py, as a state transformer on the store.
`some (none, store)` is the `abort(400)` on a missing sender; the outer
`none` models an uncaught exception (unreachable).  The returned string is
the reply body (the TwiML envelope `reply_text` is transport encoding,
out of scope). -/
def whatsapp_webhook (cfg : Config) (now : Nat) (store : Store)
    (wa_from body : String) : Option (Option String × Store) :=
  if wa_from = "" then some (none, store)
  else
    let found := session_for now store wa_from
    let sess1 : Session :=
      { found.1 with id := some wa_from, history := found.1.history ++ [("user", body)] }
    let store2 := storeSet found.2 wa_from sess1
    match trivial_intents cfg now body sess1 store2 with
    | none => none
    | some (m0, sess2, store3) =>
      let msg1 := if pyFalsy m0 then ai_answer cfg body sess2 else m0.getD ""
      let msg2 :=
        if msg1 = "" then "I didn’t catch that. Here’s the menu:\n\n" ++ small_menu cfg
        else msg1
      let sess3 : Session := { sess2 with history := sess2.history ++ [("bot", msg2)] }
      let store4 := if hasKey store3 wa_from then storeSet store3 wa_from sess3 else store3
      some (some msg2, store4)

/-! ### Traces of webhook requests -/

/-- One inbound POST: sender identifier, body text, and the clock value. -/
structure Event where
  sender : String
  body : String
  now : Nat

/-- Effect of one webhook request on the store. -/
def runStep (cfg : Config) (store : Store) (e : Event) : Store :=
  match whatsapp_webhook cfg e.now store e.sender e.body with
  | some (_, store2) => store2
  | none => store

/-- The store reached from the empty store by a sequence of requests. -/
def runTrace (cfg : Config) (trace : List Event) : Store :=
  trace.foldl (runStep cfg) []

/-- A successful `admin <passcode> reset` body. -/
def isResetText (cfg : Config) (body : String) : Bool :=
  let t := normalize body
  pyStartsWith t "admin " &&
    (let parts := pySplit t
     decide (3 ≤ parts.length) && ((parts[1]?).getD "" == cfg.admin_passcode) &&
       ((parts[2]?).getD "" == "reset"))

/-- History predicate over the reversed trace (most recent event first):
the target sender has a live session iff the most recent effective event
concerning it is a message of its own that is not `stop`, with no
successful reset in between. -/
def sessRev (cfg : Config) (target : String) : List Event → Bool
  | [] => false
  | e :: earlier =>
    if e.sender = "" then sessRev cfg target earlier
    else if isResetText cfg e.body then false
    else if e.sender = target then !(normalize e.body == "stop")
    else sessRev cfg target earlier

/-- The spec's invariant, as a predicate of the request history: the sender
has sent at least one message with a non-empty identifier, and since then
no `stop` of its own and no successful reset has occurred. -/
def sessionExpected (cfg : Config) (trace : List Event) (target : String) : Bool :=
  sessRev cfg target trace.reverse

/-- No router rule fires on `text` (all exact sets miss, no recognised
pre-marker, not `stop`). -/
def routerUnmatched (text : String) : Bool :=
  let t := normalize text
  !(decide (t = "1" ∨ t = "schemes" ∨ t = "scheme" ∨ t = "yojana") ||
    decide (t = "2" ∨ t = "grievance" ∨ t = "complaint") ||
    decide (t = "3" ∨ t = "status") ||
    decide (t = "4" ∨ t = "contact") ||
    decide (t = "5" ∨ t = "help") ||
    decide (t = "menu" ∨ t = "start" ∨ t = "hi" ∨ t = "hello" ∨ t = "namaste" ∨
      t = "नमस्ते" ∨ t = "नमस्कार") ||
    pyStartsWith t "status " ||
    pyStartsWith t "grievance " ||
    pyStartsWith t "admin " ||
    decide (t = "stop"))

/-- A concrete configuration with the defaults of app.py and no AI backend. -/
def cfgDemo : Config :=
  { app_name := "ZP WhatsApp Bot", admin_passcode := "1234", backend := none }

/-! ### Basic bridging lemmas -/

lemma exists_of_pyStartsWith {s p : String} (h : pyStartsWith s p = true) :
    ∃ r, s.data = p.data ++ r := by
  unfold pyStartsWith at h
  rw [List.isPrefixOf_iff_prefix] at h
  obtain ⟨r, hr⟩ := h
  exact ⟨r, hr.symm⟩

lemma pyStartsWith_of_data {s p : String} (r : List Char) (h : s.data = p.data ++ r) :
    pyStartsWith s p = true := by
  unfold pyStartsWith
  rw [List.isPrefixOf_iff_prefix]
  exact ⟨r, h.symm⟩

/-! ### Store lemmas -/

lemma lookupStore_eq_none_iff (st : Store) (k : String) :
    lookupStore st k = none ↔ k ∉ st.map Prod.fst := by
  induction st with
  | nil => simp [lookupStore]
  | cons hd tl ih =>
    obtain ⟨k2, v2⟩ := hd
    by_cases h : k2 = k
    · subst h
      simp [lookupStore]
    · simp [lookupStore, h, ih, Ne.symm h]

lemma lookupStore_storeSet_self (st : Store) (k : String) (v : Session) :
    lookupStore (storeSet st k v) k = some v := by
  induction st with
  | nil => simp [storeSet, lookupStore]
  | cons hd tl ih =>
    obtain ⟨k2, v2⟩ := hd
    by_cases h : k2 = k
    · simp [storeSet, h, lookupStore]
    · simp [storeSet, h, lookupStore, ih]

lemma lookupStore_storeSet_ne (st : Store) {k k2 : String} (v : Session) (h : k2 ≠ k) :
    lookupStore (storeSet st k v) k2 = lookupStore st k2 := by
  induction st with
  | nil => simp [storeSet, lookupStore, Ne.symm h]
  | cons hd tl ih =>
    obtain ⟨k3, v3⟩ := hd
    by_cases h3 : k3 = k
    · subst h3
      simp [storeSet, lookupStore, Ne.symm h]
    · simp only [storeSet, if_neg h3, lookupStore]
      by_cases h4 : k3 = k2 <;> simp [h4, ih]

lemma lookupStore_storePop_ne (st : Store) {k k2 : String} (h : k2 ≠ k) :
    lookupStore (storePop st k) k2 = lookupStore st k2 := by
  induction st with
  | nil => simp [storePop]
  | cons hd tl ih =>
    obtain ⟨k3, v3⟩ := hd
    by_cases h3 : k3 = k
    · subst h3
      simp [storePop, lookupStore, Ne.symm h]
    · simp only [storePop, if_neg h3, lookupStore]
      by_cases h4 : k3 = k2 <;> simp [h4, ih]

lemma lookupStore_storePop_self (st : Store) (k : String) (hnd : nodupKeys st) :
    lookupStore (storePop st k) k = none := by
  induction st with
  | nil => simp [storePop, lookupStore]
  | cons hd tl ih =>
    obtain ⟨k2, v2⟩ := hd
    unfold nodupKeys at hnd
    simp only [List.map_cons, List.nodup_cons] at hnd
    by_cases h : k2 = k
    · subst h
      simp only [storePop, if_pos rfl]
      rw [lookupStore_eq_none_iff]
      exact hnd.1
    · simp only [storePop, if_neg h, lookupStore, if_neg h]
      exact ih hnd.2

lemma lookupStore_append_single_ne (st : Store) {k k2 : String} (v : Session) (h : k2 ≠ k) :
    lookupStore (st ++ [(k, v)]) k2 = lookupStore st k2 := by
  induction st with
  | nil => simp [lookupStore, Ne.symm h]
  | cons hd tl ih =>
    obtain ⟨k3, v3⟩ := hd
    by_cases h3 : k3 = k2 <;> simp [lookupStore, h3, ih]

lemma lookupStore_append_single_self (st : Store) {k : String} (v : Session)
    (h : lookupStore st k = none) : lookupStore (st ++ [(k, v)]) k = some v := by
  induction st with
  | nil => simp [lookupStore]
  | cons hd tl ih =>
    obtain ⟨k3, v3⟩ := hd
    simp only [lookupStore] at h ⊢
    by_cases h3 : k3 = k
    · simp [h3] at h
    · simpa [h3] using ih (by simpa [h3] using h)

lemma mem_keys_storeSet (st : Store) (k : String) (v : Session) (x : String)
    (hx : x ∈ (storeSet st k v).map Prod.fst) : x ∈ st.map Prod.fst ∨ x = k := by
  induction st with
  | nil =>
    right
    simpa [storeSet] using hx
  | cons hd tl ih =>
    obtain ⟨k2, v2⟩ := hd
    by_cases h : k2 = k
    · subst h
      have e : storeSet ((k2, v2) :: tl) k2 v = (k2, v) :: tl := by simp [storeSet]
      rw [e] at hx
      simp only [List.map_cons, List.mem_cons] at hx ⊢
      tauto
    · simp only [storeSet, if_neg h, List.map_cons, List.mem_cons] at hx
      rcases hx with hx | hx
      · exact Or.inl (by simp [hx])
      · rcases ih hx with hx2 | hx2
        · exact Or.inl (by simp [hx2])
        · exact Or.inr hx2

lemma nodupKeys_storeSet (st : Store) (k : String) (v : Session) (hnd : nodupKeys st) :
    nodupKeys (storeSet st k v) := by
  induction st with
  | nil => simp [storeSet, nodupKeys]
  | cons hd tl ih =>
    obtain ⟨k2, v2⟩ := hd
    unfold nodupKeys at hnd ⊢
    rw [List.map_cons, List.nodup_cons] at hnd
    by_cases h : k2 = k
    · subst h
      have e : storeSet ((k2, v2) :: tl) k2 v = (k2, v) :: tl := by simp [storeSet]
      rw [e, List.map_cons, List.nodup_cons]
      exact hnd
    · have e : storeSet ((k2, v2) :: tl) k v = (k2, v2) :: storeSet tl k v := by
        simp [storeSet, h]
      rw [e, List.map_cons, List.nodup_cons]
      refine ⟨fun hmem => ?_, ih hnd.2⟩
      rcases mem_keys_storeSet tl k v k2 hmem with h2 | h2
      · exact hnd.1 h2
      · exact h h2

lemma keys_storePop_sublist (st : Store) (k : String) :
    ((storePop st k).map Prod.fst).Sublist (st.map Prod.fst) := by
  induction st with
  | nil => simp [storePop]
  | cons hd tl ih =>
    obtain ⟨k2, v2⟩ := hd
    by_cases h : k2 = k
    · simp only [storePop, if_pos h, List.map_cons]
      exact List.sublist_cons_self k2 (tl.map Prod.fst)
    · simp only [storePop, if_neg h, List.map_cons]
      exact ih.cons₂ k2

lemma nodupKeys_storePop (st : Store) (k : String) (hnd : nodupKeys st) :
    nodupKeys (storePop st k) := List.Nodup.sublist (keys_storePop_sublist st k) hnd

lemma nodupKeys_append_single (st : Store) (k : String) (v : Session)
    (hnd : nodupKeys st) (h : lookupStore st k = none) : nodupKeys (st ++ [(k, v)]) := by
  unfold nodupKeys at hnd ⊢
  rw [lookupStore_eq_none_iff] at h
  simp only [List.map_append, List.map_cons, List.map_nil]
  refine List.Nodup.append hnd (List.nodup_singleton k) ?_
  intro a ha hb
  rw [List.mem_singleton] at hb
  subst hb
  exact h ha

/-! ### Character lemmas -/

lemma isWs_lowerChar (c : Char) : isWs (lowerChar c) = isWs c := by
  unfold lowerChar
  split
  case isTrue h =>
    obtain ⟨h1, h2⟩ := h
    unfold isWs
    generalize c.toNat = n at h1 h2 ⊢
    interval_cases n <;> decide
  case isFalse h => rfl

lemma lowerChar_not_upper (c : Char) :
    ¬(65 ≤ (lowerChar c).toNat ∧ (lowerChar c).toNat ≤ 90) := by
  unfold lowerChar
  split
  case isTrue h =>
    obtain ⟨h1, h2⟩ := h
    generalize c.toNat = n at h1 h2 ⊢
    interval_cases n <;> decide
  case isFalse h => exact h

lemma isDigitCh_digitChar (d : Nat) (h : d < 10) : isDigitCh (digitChar d) = true := by
  unfold digitChar
  interval_cases d <;> decide

/-! ### Normalizer lemmas -/

lemma isWs_space : isWs ' ' = true := by decide

lemma collapseAux_cons_ws_true {d : Char} (rest : List Char) (h : isWs d = true) :
    collapseAux true (d :: rest) = collapseAux true rest := by
  simp [collapseAux, h]

lemma collapseAux_cons_ws_false {d : Char} (rest : List Char) (h : isWs d = true) :
    collapseAux false (d :: rest) = ' ' :: collapseAux true rest := by
  simp [collapseAux, h]

lemma collapseAux_cons_not_ws {d : Char} (b : Bool) (rest : List Char) (h : isWs d = false) :
    collapseAux b (d :: rest) = d :: collapseAux false rest := by
  simp [collapseAux, h]

lemma filter_not_isWs_collapseAux (b : Bool) (l : List Char) :
    (collapseAux b l).filter (fun c => !isWs c) = l.filter (fun c => !isWs c) := by
  induction l generalizing b with
  | nil => rfl
  | cons c rest ih =>
    by_cases h : isWs c = true
    · cases b with
      | true => simp [collapseAux_cons_ws_true rest h, List.filter_cons, h, ih]
      | false =>
        simp [collapseAux_cons_ws_false rest h, List.filter_cons, h, isWs_space, ih]
    · rw [Bool.not_eq_true] at h
      simp [collapseAux_cons_not_ws b rest h, List.filter_cons, h, ih]

lemma filter_not_isWs_dropWhile (l : List Char) :
    (l.dropWhile isWs).filter (fun c => !isWs c) = l.filter (fun c => !isWs c) := by
  induction l with
  | nil => rfl
  | cons c rest ih =>
    by_cases h : isWs c = true
    · simp [List.dropWhile_cons, h, List.filter_cons, ih]
    · rw [Bool.not_eq_true] at h
      simp [List.dropWhile_cons, h, List.filter_cons]

lemma filter_not_isWs_stripL (l : List Char) :
    (stripL l).filter (fun c => !isWs c) = l.filter (fun c => !isWs c) := by
  unfold stripL rstripL lstripL
  rw [List.filter_reverse, filter_not_isWs_dropWhile, List.filter_reverse,
    List.reverse_reverse, filter_not_isWs_dropWhile]

lemma normalize_data (t : String) :
    (normalize t).data = (collapseAux false (stripL t.data)).map lowerChar := rfl

lemma normalize_filter (t : String) :
    (normalize t).data.filter (fun c => !isWs c) =
      (t.data.filter (fun c => !isWs c)).map lowerChar := by
  rw [normalize_data, List.filter_map]
  have hcomp : ((fun c => !isWs c) ∘ lowerChar) = fun c => !isWs c := by
    funext c
    simp [Function.comp, isWs_lowerChar]
  rw [hcomp, filter_not_isWs_collapseAux, filter_not_isWs_stripL]

lemma collapseAux_ws_eq_space (b : Bool) (l : List Char) (c : Char)
    (hc : c ∈ collapseAux b l) (hw : isWs c = true) : c = ' ' := by
  induction l generalizing b with
  | nil => simp [collapseAux] at hc
  | cons d rest ih =>
    by_cases h : isWs d = true
    · cases b with
      | true =>
        rw [collapseAux_cons_ws_true rest h] at hc
        exact ih true hc
      | false =>
        rw [collapseAux_cons_ws_false rest h] at hc
        rcases List.mem_cons.mp hc with h2 | h2
        · exact h2
        · exact ih true h2
    · rw [Bool.not_eq_true] at h
      rw [collapseAux_cons_not_ws b rest h] at hc
      rcases List.mem_cons.mp hc with h2 | h2
      · rw [h2] at hw
        rw [hw] at h
        cases h
      · exact ih false h2

lemma head_collapseAux_true_not_ws (l : List Char) (c : Char)
    (hc : (collapseAux true l).head? = some c) : isWs c = false := by
  induction l with
  | nil => simp [collapseAux] at hc
  | cons d rest ih =>
    by_cases h : isWs d = true
    · rw [collapseAux_cons_ws_true rest h] at hc
      exact ih hc
    · rw [Bool.not_eq_true] at h
      rw [collapseAux_cons_not_ws true rest h] at hc
      simp only [List.head?_cons, Option.some.injEq] at hc
      rw [← hc]
      exact h

lemma chain_collapseAux (b : Bool) (l : List Char) :
    (collapseAux b l).Chain' (fun x y => ¬(isWs x = true ∧ isWs y = true)) := by
  induction l generalizing b with
  | nil => simp [collapseAux]
  | cons d rest ih =>
    by_cases h : isWs d = true
    · cases b with
      | true =>
        rw [collapseAux_cons_ws_true rest h]
        exact ih true
      | false =>
        rw [collapseAux_cons_ws_false rest h, List.chain'_cons']
        refine ⟨fun y hy => ?_, ih true⟩
        have hyw := head_collapseAux_true_not_ws rest y hy
        intro hand
        rw [hand.2] at hyw
        cases hyw
    · rw [Bool.not_eq_true] at h
      rw [collapseAux_cons_not_ws b rest h, List.chain'_cons']
      refine ⟨fun y hy => ?_, ih false⟩
      intro hand
      rw [hand.1] at h
      cases h

lemma collapseAux_ne_nil (b : Bool) (l : List Char) (c : Char)
    (hlast : l.getLast? = some c) (hcws : isWs c = false) : collapseAux b l ≠ [] := by
  induction l generalizing b with
  | nil => simp at hlast
  | cons d rest ih =>
    cases rest with
    | nil =>
      simp only [List.getLast?_singleton, Option.some.injEq] at hlast
      subst hlast
      rw [collapseAux_cons_not_ws b [] hcws]
      simp
    | cons e rest2 =>
      rw [List.getLast?_cons_cons] at hlast
      by_cases h : isWs d = true
      · cases b with
        | true =>
          rw [collapseAux_cons_ws_true (e :: rest2) h]
          exact ih true hlast
        | false =>
          rw [collapseAux_cons_ws_false (e :: rest2) h]
          exact List.cons_ne_nil _ _
      · rw [Bool.not_eq_true] at h
        rw [collapseAux_cons_not_ws b (e :: rest2) h]
        exact List.cons_ne_nil _ _

lemma getLast_collapseAux_not_ws (b : Bool) (l : List Char) (c : Char)
    (hlast : l.getLast? = some c) (hcws : isWs c = false) :
    ∀ x, (collapseAux b l).getLast? = some x → isWs x = false := by
  induction l generalizing b with
  | nil => simp at hlast
  | cons d rest ih =>
    intro x hx
    cases rest with
    | nil =>
      simp only [List.getLast?_singleton, Option.some.injEq] at hlast
      subst hlast
      rw [collapseAux_cons_not_ws b [] hcws] at hx
      simp only [collapseAux, List.getLast?_singleton, Option.some.injEq] at hx
      rw [← hx]
      exact hcws
    | cons e rest2 =>
      rw [List.getLast?_cons_cons] at hlast
      by_cases h : isWs d = true
      · cases b with
        | true =>
          rw [collapseAux_cons_ws_true (e :: rest2) h] at hx
          exact ih true hlast x hx
        | false =>
          rw [collapseAux_cons_ws_false (e :: rest2) h] at hx
          obtain ⟨y, ys, hys⟩ :=
            List.exists_cons_of_ne_nil (collapseAux_ne_nil true (e :: rest2) c hlast hcws)
          rw [hys, List.getLast?_cons_cons] at hx
          exact ih true hlast x (by rw [hys]; exact hx)
      · rw [Bool.not_eq_true] at h
        rw [collapseAux_cons_not_ws b (e :: rest2) h] at hx
        obtain ⟨y, ys, hys⟩ :=
          List.exists_cons_of_ne_nil (collapseAux_ne_nil false (e :: rest2) c hlast hcws)
        rw [hys, List.getLast?_cons_cons] at hx
        exact ih false hlast x (by rw [hys]; exact hx)

lemma head_dropWhile_not_ws (l : List Char) (c : Char)
    (h : (l.dropWhile isWs).head? = some c) : isWs c = false := by
  have h2 := List.head?_dropWhile_not isWs l
  rw [h] at h2
  simpa using h2

lemma head_stripL_not_ws (l : List Char) (c : Char)
    (h : (stripL l).head? = some c) : isWs c = false := by
  unfold stripL rstripL at h
  have hpre : ((lstripL l).reverse.dropWhile isWs).reverse <+: lstripL l := by
    conv_rhs => rw [← List.reverse_reverse (lstripL l)]
    exact List.reverse_prefix.mpr (List.dropWhile_suffix isWs)
  obtain ⟨tl2, htl2⟩ := hpre
  cases hX : ((lstripL l).reverse.dropWhile isWs).reverse with
  | nil =>
    rw [hX] at h
    simp at h
  | cons y ys =>
    rw [hX] at h htl2
    simp only [List.head?_cons, Option.some.injEq] at h
    subst h
    apply head_dropWhile_not_ws l
    show (l.dropWhile isWs).head? = some y
    have : lstripL l = y :: (ys ++ tl2) := by
      rw [← htl2]
      simp
    unfold lstripL at this
    rw [this]
    rfl

lemma getLast_stripL_not_ws (l : List Char) (c : Char)
    (h : (stripL l).getLast? = some c) : isWs c = false := by
  unfold stripL rstripL at h
  rw [List.getLast?_reverse] at h
  exact head_dropWhile_not_ws (lstripL l).reverse c h

lemma head_collapseAux_false_not_ws (l : List Char) (c : Char)
    (hl : ∀ d, l.head? = some d → isWs d = false)
    (hc : (collapseAux false l).head? = some c) : isWs c = false := by
  cases l with
  | nil => simp [collapseAux] at hc
  | cons d rest =>
    have hd := hl d rfl
    rw [collapseAux_cons_not_ws false rest hd] at hc
    simp only [List.head?_cons, Option.some.injEq] at hc
    rw [← hc]
    exact hd

lemma normalize_head_not_ws (t : String) (c : Char)
    (h : (normalize t).data.head? = some c) : isWs c = false := by
  rw [normalize_data, List.head?_map] at h
  cases hx : (collapseAux false (stripL t.data)).head? with
  | none =>
    rw [hx] at h
    simp at h
  | some d =>
    rw [hx] at h
    simp only [Option.map_some', Option.some.injEq] at h
    rw [← h, isWs_lowerChar]
    exact head_collapseAux_false_not_ws (stripL t.data) d
      (fun e he => head_stripL_not_ws t.data e he) hx

lemma normalize_getLast_not_ws (t : String) (c : Char)
    (h : (normalize t).data.getLast? = some c) : isWs c = false := by
  rw [normalize_data, List.getLast?_map] at h
  cases hx : (collapseAux false (stripL t.data)).getLast? with
  | none =>
    rw [hx] at h
    simp at h
  | some d =>
    rw [hx] at h
    simp only [Option.map_some', Option.some.injEq] at h
    rw [← h, isWs_lowerChar]
    cases hsl : stripL t.data with
    | nil =>
      rw [hsl] at hx
      simp [collapseAux] at hx
    | cons e es =>
      obtain ⟨w, hw⟩ : ∃ w, (e :: es).getLast? = some w := by
        cases hes : (e :: es).getLast? with
        | none =>
          rw [List.getLast?_eq_none_iff] at hes
          cases hes
        | some w => exact ⟨w, rfl⟩
      have hwws : isWs w = false := getLast_stripL_not_ws t.data w (by rw [hsl]; exact hw)
      exact getLast_collapseAux_not_ws false (e :: es) w hw hwws d (by rw [← hsl]; rw [hsl]; exact (hsl ▸ hx))

lemma normalize_ws_eq_space (t : String) (c : Char) (hc : c ∈ (normalize t).data)
    (hw : isWs c = true) : c = ' ' := by
  rw [normalize_data] at hc
  obtain ⟨d, hd, rfl⟩ := List.mem_map.mp hc
  have hwd : isWs d = true := by rwa [isWs_lowerChar] at hw
  have hds : d = ' ' := collapseAux_ws_eq_space false (stripL t.data) d hd hwd
  rw [hds]
  decide

lemma normalize_chain (t : String) :
    (normalize t).data.Chain' (fun a b => ¬(isWs a = true ∧ isWs b = true)) := by
  rw [normalize_data, List.chain'_map]
  refine List.Chain'.imp ?_ (chain_collapseAux false (stripL t.data))
  intro a b hab hand
  obtain ⟨h1, h2⟩ := hand
  rw [isWs_lowerChar] at h1 h2
  exact hab ⟨h1, h2⟩

lemma normalize_no_upper (t : String) (c : Char) (hc : c ∈ (normalize t).data) :
    ¬(65 ≤ c.toNat ∧ c.toNat ≤ 90) := by
  rw [normalize_data] at hc
  obtain ⟨d, _, rfl⟩ := List.mem_map.mp hc
  exact lowerChar_not_upper d

lemma normalize_all_ws (s : String) (h : ∀ c ∈ s.data, isWs c = true) :
    normalize s = "" := by
  have h1 : s.data.dropWhile isWs = [] := List.dropWhile_eq_nil_iff.mpr h
  unfold normalize stripL lstripL
  rw [h1]
  rfl

/-! ### Decimal digit lemmas (for ticket ids and the session count) -/

lemma decDigitsCore_cons (fuel n : Nat) (hn : ¬ n = 0) :
    decDigitsCore (fuel + 1) n = decDigitsCore fuel (n / 10) ++ [digitChar (n % 10)] := by
  simp [decDigitsCore, hn]

lemma decDigitsCore_length (fuel n k : Nat) (h : n < 10 ^ k) :
    (decDigitsCore fuel n).length ≤ k := by
  induction fuel generalizing n k with
  | zero => simp [decDigitsCore]
  | succ fuel ih =>
    by_cases hn : n = 0
    · simp [decDigitsCore, hn]
    · rw [decDigitsCore_cons fuel n hn, List.length_append]
      cases k with
      | zero =>
        exfalso
        have : n = 0 := by omega
        exact hn this
      | succ k2 =>
        have hdiv : n / 10 < 10 ^ k2 := by
          apply Nat.div_lt_of_lt_mul
          calc n < 10 ^ (k2 + 1) := h
            _ = 10 * 10 ^ k2 := by ring
        have := ih (n / 10) k2 hdiv
        simp only [List.length_singleton]
        omega

lemma decDigitsCore_mem_digit (fuel n : Nat) (c : Char) (hc : c ∈ decDigitsCore fuel n) :
    isDigitCh c = true := by
  induction fuel generalizing n with
  | zero => simp [decDigitsCore] at hc
  | succ fuel ih =>
    by_cases hn : n = 0
    · simp [decDigitsCore, hn] at hc
    · rw [decDigitsCore_cons fuel n hn] at hc
      rcases List.mem_append.mp hc with h2 | h2
      · exact ih (n / 10) h2
      · rw [List.mem_singleton] at h2
        rw [h2]
        exact isDigitCh_digitChar (n % 10) (Nat.mod_lt n (by norm_num))

lemma pad5_length (n : Nat) (h : n < 100000) : (pad5 n).length = 5 := by
  have hlen : (decDigitsCore n n).length ≤ 5 :=
    decDigitsCore_length n n 5 (by norm_num; exact h)
  show (List.replicate (5 - (decDigitsCore n n).length) '0' ++ decDigitsCore n n).length = 5
  rw [List.length_append, List.length_replicate]
  omega

lemma pad5_digits (n : Nat) (c : Char) (hc : c ∈ (pad5 n).data) : isDigitCh c = true := by
  have hc2 : c ∈ List.replicate (5 - (decDigitsCore n n).length) '0' ++ decDigitsCore n n := hc
  rcases List.mem_append.mp hc2 with h2 | h2
  · rw [List.eq_of_mem_replicate h2]
    decide
  · exact decDigitsCore_mem_digit n n c h2

/-! ### admin_ops lemmas -/

lemma admin_ops_reset (cfg : Config) (parts : List String) (store : Store)
    (h3 : 3 ≤ parts.length) (h4 : parts[1]?.getD "" = cfg.admin_passcode)
    (h5 : parts[2]?.getD "" = "reset") :
    admin_ops cfg parts store = some ("All sessions cleared.", []) := by
  have hp1 : parts[1]? = some parts[1] := List.getElem?_eq_getElem (by omega)
  have hp2 : parts[2]? = some parts[2] := List.getElem?_eq_getElem (by omega)
  rw [hp1, Option.getD_some] at h4
  rw [hp2, Option.getD_some] at h5
  unfold admin_ops
  rw [if_neg (by omega), hp1, hp2]
  simp [h4, h5]

lemma admin_ops_not_reset (cfg : Config) (parts : List String) (store : Store)
    (h : ¬(3 ≤ parts.length ∧ parts[1]?.getD "" = cfg.admin_passcode ∧
      parts[2]?.getD "" = "reset")) :
    ∃ msg, admin_ops cfg parts store = some (msg, store) := by
  by_cases hl : parts.length < 3
  · refine ⟨"Usage: admin <passcode> <ping|stats|reset>", ?_⟩
    unfold admin_ops
    rw [if_pos hl]
  · have hp1 : parts[1]? = some parts[1] := List.getElem?_eq_getElem (by omega)
    have hp2 : parts[2]? = some parts[2] := List.getElem?_eq_getElem (by omega)
    by_cases hpass : parts[1] = cfg.admin_passcode
    · by_cases hping : parts[2] = "ping"
      · refine ⟨"pong ✅", ?_⟩
        unfold admin_ops
        rw [if_neg hl, hp1, hp2]
        simp [hpass, hping]
      · by_cases hstats : parts[2] = "stats"
        · refine ⟨"Sessions: " ++ natRepr store.length, ?_⟩
          unfold admin_ops
          rw [if_neg hl, hp1, hp2]
          simp [hpass, hping, hstats]
        · by_cases hreset : parts[2] = "reset"
          · exfalso
            exact h ⟨by omega, by rw [hp1, Option.getD_some]; exact hpass,
              by rw [hp2, Option.getD_some]; exact hreset⟩
          · refine ⟨"Unknown admin command.", ?_⟩
            unfold admin_ops
            rw [if_neg hl, hp1, hp2]
            simp [hpass, hping, hstats, hreset]
    · refine ⟨"Admin: invalid passcode.", ?_⟩
      unfold admin_ops
      rw [if_neg hl, hp1]
      simp [hpass]

lemma admin_ops_isSome (cfg : Config) (parts : List String) (store : Store) :
    ∃ res, admin_ops cfg parts store = some res := by
  by_cases h : 3 ≤ parts.length ∧ parts[1]?.getD "" = cfg.admin_passcode ∧
      parts[2]?.getD "" = "reset"
  · exact ⟨_, admin_ops_reset cfg parts store h.1 h.2.1 h.2.2⟩
  · obtain ⟨msg, hm⟩ := admin_ops_not_reset cfg parts store h
    exact ⟨_, hm⟩

/-! ### Router branch lemmas -/

lemma splitOnceRest_of_status_data (t : String) (r : List Char)
    (hr2 : t.data = 's' :: 't' :: 'a' :: 't' :: 'u' :: 's' :: ' ' :: r) :
    splitOnceRest t = some (String.mk r) := by
  unfold splitOnceRest
  rw [hr2]
  simp [List.dropWhile_cons]

lemma isResetText_parts (cfg : Config) (text : String) (h : isResetText cfg text = true) :
    pyStartsWith (normalize text) "admin " = true ∧
    3 ≤ (pySplit (normalize text)).length ∧
    (pySplit (normalize text))[1]?.getD "" = cfg.admin_passcode ∧
    (pySplit (normalize text))[2]?.getD "" = "reset" := by
  unfold isResetText at h
  simp only [Bool.and_eq_true, decide_eq_true_eq, beq_iff_eq] at h
  exact ⟨h.1, h.2.1.1, h.2.1.2, h.2.2⟩

/-- `isResetText` is exactly the branch condition under which `admin_ops`
clears the store. -/
lemma isResetText_false_cond (cfg : Config) (text : String)
    (hres : isResetText cfg text = false)
    (c9 : pyStartsWith (normalize text) "admin " = true) :
    ¬(3 ≤ (pySplit (normalize text)).length ∧
      (pySplit (normalize text))[1]?.getD "" = cfg.admin_passcode ∧
      (pySplit (normalize text))[2]?.getD "" = "reset") := by
  intro hand
  obtain ⟨a, b, c⟩ := hand
  unfold isResetText at hres
  simp only [c9, a, b, c, decide_eq_true_eq, Bool.true_and, beq_self_eq_true,
    Bool.and_self, decide_True] at hres
  exact Bool.true_eq_false.mp hres

lemma trivial_intents_reset (cfg : Config) (now : Nat) (text : String) (sess : Session)
    (store : Store) (h : isResetText cfg text = true) :
    trivial_intents cfg now text sess store =
      some (some "All sessions cleared.", sess, []) := by
  obtain ⟨h1, h3, h4, h5⟩ := isResetText_parts cfg text h
  obtain ⟨r, hr⟩ := exists_of_pyStartsWith h1
  have hr2 : (normalize text).data = 'a' :: 'd' :: 'm' :: 'i' :: 'n' :: ' ' :: r :=
    hr.trans rfl
  simp only [trivial_intents]
  rw [if_neg (by simp [String.ext_iff, hr2]),
      if_neg (by simp [String.ext_iff, hr2]),
      if_neg (by simp [String.ext_iff, hr2]),
      if_neg (by simp [String.ext_iff, hr2]),
      if_neg (by simp [String.ext_iff, hr2]),
      if_neg (by simp [String.ext_iff, hr2]),
      if_neg (by simp [pyStartsWith, hr2, List.isPrefixOf]),
      if_neg (by simp [pyStartsWith, hr2, List.isPrefixOf]),
      if_pos h1,
      admin_ops_reset cfg (pySplit (normalize text)) store h3 h4 h5]

lemma trivial_intents_stop (cfg : Config) (now : Nat) (text : String) (sess : Session)
    (store : Store) (h : normalize text = "stop") :
    trivial_intents cfg now text sess store =
      some (some "Session cleared. Send ‘menu’ to start again.", sess,
        storePop store (sess.id.getD "")) := by
  simp [trivial_intents, h, pyStartsWith, List.isPrefixOf]

lemma trivial_intents_menu (cfg : Config) (now : Nat) (text : String) (sess : Session)
    (store : Store) (h : normalize text = "menu") :
    trivial_intents cfg now text sess store =
      some (some (small_menu cfg), { sess with last_intent := some "menu" }, store) := by
  simp [trivial_intents, h]

lemma trivial_intents_status_exact (cfg : Config) (now : Nat) (text : String) (sess : Session)
    (store : Store) (h : normalize text = "status") :
    trivial_intents cfg now text sess store =
      some (some "Send: `status <APPLICATION_ID>`\nExample: `status PMAY123`",
        { sess with last_intent := some "status" }, store) := by
  simp [trivial_intents, h]

lemma trivial_intents_status_lookup (cfg : Config) (now : Nat) (text : String)
    (sess : Session) (store : Store)
    (h1 : pyStartsWith (normalize text) "status " = true) :
    trivial_intents cfg now text sess store =
      some (some (status_lookup (pyStrip (strDropStr (normalize text) 7))),
        { sess with last_intent := some "status_lookup" }, store) := by
  obtain ⟨r, hr⟩ := exists_of_pyStartsWith h1
  have hr2 : (normalize text).data = 's' :: 't' :: 'a' :: 't' :: 'u' :: 's' :: ' ' :: r :=
    hr.trans rfl
  have hdrop : strDropStr (normalize text) 7 = String.mk r := by
    unfold strDropStr
    rw [hr2]
    rfl
  simp only [trivial_intents]
  rw [if_neg (by simp [String.ext_iff, hr2]),
      if_neg (by simp [String.ext_iff, hr2]),
      if_neg (by simp [String.ext_iff, hr2]),
      if_neg (by simp [String.ext_iff, hr2]),
      if_neg (by simp [String.ext_iff, hr2]),
      if_neg (by simp [String.ext_iff, hr2]),
      if_pos h1,
      splitOnceRest_of_status_data (normalize text) r hr2, hdrop]

lemma trivial_intents_other (cfg : Config) (now : Nat) (text : String) (sess : Session)
    (store : Store) (hres : isResetText cfg text = false)
    (hstop : normalize text ≠ "stop") :
    ∃ m sess2, trivial_intents cfg now text sess store = some (m, sess2, store) := by
  simp only [trivial_intents]
  by_cases c1 : normalize text = "1" ∨ normalize text = "schemes" ∨
      normalize text = "scheme" ∨ normalize text = "yojana"
  · rw [if_pos c1]
    exact ⟨_, _, rfl⟩
  rw [if_neg c1]
  by_cases c2 : normalize text = "2" ∨ normalize text = "grievance" ∨
      normalize text = "complaint"
  · rw [if_pos c2]
    exact ⟨_, _, rfl⟩
  rw [if_neg c2]
  by_cases c3 : normalize text = "3" ∨ normalize text = "status"
  · rw [if_pos c3]
    exact ⟨_, _, rfl⟩
  rw [if_neg c3]
  by_cases c4 : normalize text = "4" ∨ normalize text = "contact"
  · rw [if_pos c4]
    exact ⟨_, _, rfl⟩
  rw [if_neg c4]
  by_cases c5 : normalize text = "5" ∨ normalize text = "help"
  · rw [if_pos c5]
    exact ⟨_, _, rfl⟩
  rw [if_neg c5]
  by_cases c6 : normalize text = "menu" ∨ normalize text = "start" ∨
      normalize text = "hi" ∨ normalize text = "hello" ∨ normalize text = "namaste" ∨
      normalize text = "नमस्ते" ∨ normalize text = "नमस्कार"
  · rw [if_pos c6]
    exact ⟨_, _, rfl⟩
  rw [if_neg c6]
  by_cases c7 : pyStartsWith (normalize text) "status " = true
  · obtain ⟨r, hr⟩ := exists_of_pyStartsWith c7
    have hr2 : (normalize text).data = 's' :: 't' :: 'a' :: 't' :: 'u' :: 's' :: ' ' :: r :=
      hr.trans rfl
    rw [if_pos c7, splitOnceRest_of_status_data (normalize text) r hr2]
    exact ⟨_, _, rfl⟩
  rw [if_neg c7]
  by_cases c8 : pyStartsWith (normalize text) "grievance " = true
  · rw [if_pos c8]
    by_cases c8b : (pyStrip (strDropStr (pyStrip text) 10)).length < 4
    · rw [if_pos c8b]
      exact ⟨_, _, rfl⟩
    · rw [if_neg c8b]
      exact ⟨_, _, rfl⟩
  rw [if_neg c8]
  by_cases c9 : pyStartsWith (normalize text) "admin " = true
  · rw [if_pos c9]
    obtain ⟨msg, hm⟩ := admin_ops_not_reset cfg (pySplit (normalize text)) store
      (isResetText_false_cond cfg text hres c9)
    rw [hm]
    exact ⟨_, _, rfl⟩
  rw [if_neg c9, if_neg hstop]
  exact ⟨_, _, rfl⟩

lemma trivial_intents_unmatched (cfg : Config) (now : Nat) (text : String) (sess : Session)
    (store : Store) (h : routerUnmatched text = true) :
    trivial_intents cfg now text sess store = some (none, sess, store) := by
  unfold routerUnmatched at h
  simp only [Bool.not_eq_true', Bool.or_eq_false_iff, decide_eq_false_iff_not] at h
  obtain ⟨⟨⟨⟨⟨⟨⟨⟨⟨h1, h2⟩, h3⟩, h4⟩, h5⟩, h6⟩, h7⟩, h8⟩, h9⟩, h10⟩ := h
  simp only [trivial_intents]
  rw [if_neg h1, if_neg h2, if_neg h3, if_neg h4, if_neg h5, if_neg h6,
    if_neg (by simp [h7]), if_neg (by simp [h8]), if_neg (by simp [h9]), if_neg h10]

/-! ### Webhook step lemmas -/

/-- The session record after the webhook's `sess["id"] = wa_from` and the
user-history append. -/
def webhookSess1 (now : Nat) (store : Store) (wa_from body : String) : Session :=
  { (session_for now store wa_from).1 with
    id := some wa_from,
    history := (session_for now store wa_from).1.history ++ [("user", body)] }

/-- The store as seen by `trivial_intents`: the (possibly fresh) session,
with id and user message recorded, written back at the sender's key. -/
def webhookStore2 (now : Nat) (store : Store) (wa_from body : String) : Store :=
  storeSet (session_for now store wa_from).2 wa_from (webhookSess1 now store wa_from body)

/-- The reply-body computation of the webhook after the router returned. -/
def webhookMsg2 (cfg : Config) (body : String) (m0 : Option String) (sess2 : Session) :
    String :=
  let msg1 := if pyFalsy m0 then ai_answer cfg body sess2 else m0.getD ""
  if msg1 = "" then "I didn’t catch that. Here’s the menu:\n\n" ++ small_menu cfg else msg1

lemma whatsapp_webhook_eq (cfg : Config) (now : Nat) (store : Store)
    (wa_from body : String) (hs : wa_from ≠ "") (m0 : Option String) (sess2 : Session)
    (store3 : Store)
    (hTI : trivial_intents cfg now body (webhookSess1 now store wa_from body)
      (webhookStore2 now store wa_from body) = some (m0, sess2, store3)) :
    whatsapp_webhook cfg now store wa_from body =
      some (some (webhookMsg2 cfg body m0 sess2),
        if hasKey store3 wa_from then
          storeSet store3 wa_from
            { sess2 with history := sess2.history ++ [("bot", webhookMsg2 cfg body m0 sess2)] }
        else store3) := by
  simp only [webhookSess1, webhookStore2] at hTI
  simp only [whatsapp_webhook]
  rw [if_neg hs]
  rw [hTI]
  rfl

lemma hasKey_false_lookup (store : Store) (k : String) (h : hasKey store k = false) :
    lookupStore store k = none := by
  unfold hasKey at h
  cases hl : lookupStore store k with
  | none => rfl
  | some v =>
    rw [hl] at h
    simp at h

lemma nodupKeys_session_for (now : Nat) (store : Store) (wa_from : String)
    (hnd : nodupKeys store) : nodupKeys (session_for now store wa_from).2 := by
  unfold session_for
  cases hl : lookupStore store wa_from with
  | some s => exact hnd
  | none => exact nodupKeys_append_single store wa_from (freshSession now) hnd hl

lemma lookupStore_session_for_ne (now : Nat) (store : Store) (wa_from k : String)
    (hk : k ≠ wa_from) :
    lookupStore (session_for now store wa_from).2 k = lookupStore store k := by
  unfold session_for
  cases hl : lookupStore store wa_from with
  | some s => rfl
  | none => exact lookupStore_append_single_ne store (freshSession now) hk

lemma nodupKeys_webhookStore2 (now : Nat) (store : Store) (wa_from body : String)
    (hnd : nodupKeys store) : nodupKeys (webhookStore2 now store wa_from body) :=
  nodupKeys_storeSet _ wa_from _ (nodupKeys_session_for now store wa_from hnd)

lemma lookupStore_webhookStore2_ne (now : Nat) (store : Store) (wa_from body k : String)
    (hk : k ≠ wa_from) :
    lookupStore (webhookStore2 now store wa_from body) k = lookupStore store k := by
  unfold webhookStore2
  rw [lookupStore_storeSet_ne _ _ hk]
  exact lookupStore_session_for_ne now store wa_from k hk

lemma hasKey_webhookStore2_self (now : Nat) (store : Store) (wa_from body : String) :
    hasKey (webhookStore2 now store wa_from body) wa_from = true := by
  unfold webhookStore2 hasKey
  rw [lookupStore_storeSet_self]
  rfl

lemma runStep_empty_sender (cfg : Config) (store : Store) (e : Event)
    (hs : e.sender = "") : runStep cfg store e = store := by
  simp [runStep, whatsapp_webhook, hs]

lemma runStep_reset (cfg : Config) (store : Store) (e : Event) (hs : e.sender ≠ "")
    (hres : isResetText cfg e.body = true) : runStep cfg store e = [] := by
  have hTI := trivial_intents_reset cfg e.now e.body
    (webhookSess1 e.now store e.sender e.body) (webhookStore2 e.now store e.sender e.body)
    hres
  unfold runStep
  rw [whatsapp_webhook_eq cfg e.now store e.sender e.body hs _ _ _ hTI]
  simp [hasKey, lookupStore]

lemma runStep_stop (cfg : Config) (store : Store) (e : Event) (hnd : nodupKeys store)
    (hs : e.sender ≠ "") (hstop : normalize e.body = "stop") :
    runStep cfg store e = storePop (webhookStore2 e.now store e.sender e.body) e.sender := by
  have hTI := trivial_intents_stop cfg e.now e.body
    (webhookSess1 e.now store e.sender e.body) (webhookStore2 e.now store e.sender e.body)
    hstop
  have hid : (webhookSess1 e.now store e.sender e.body).id.getD "" = e.sender := rfl
  rw [hid] at hTI
  unfold runStep
  rw [whatsapp_webhook_eq cfg e.now store e.sender e.body hs _ _ _ hTI]
  have hkey : hasKey (storePop (webhookStore2 e.now store e.sender e.body) e.sender)
      e.sender = false := by
    unfold hasKey
    rw [lookupStore_storePop_self _ _ (nodupKeys_webhookStore2 e.now store e.sender e.body hnd)]
    rfl
  rw [if_neg (by rw [hkey]; exact Bool.false_ne_true)]

lemma runStep_other (cfg : Config) (store : Store) (e : Event) (hs : e.sender ≠ "")
    (hres : isResetText cfg e.body = false) (hstop : normalize e.body ≠ "stop") :
    ∃ sess3, runStep cfg store e =
      storeSet (webhookStore2 e.now store e.sender e.body) e.sender sess3 := by
  obtain ⟨m0, sess2, hTI⟩ := trivial_intents_other cfg e.now e.body
    (webhookSess1 e.now store e.sender e.body) (webhookStore2 e.now store e.sender e.body)
    hres hstop
  unfold runStep
  rw [whatsapp_webhook_eq cfg e.now store e.sender e.body hs _ _ _ hTI]
  rw [if_pos (hasKey_webhookStore2_self e.now store e.sender e.body)]
  exact ⟨_, rfl⟩

lemma nodupKeys_runStep (cfg : Config) (store : Store) (e : Event)
    (hnd : nodupKeys store) : nodupKeys (runStep cfg store e) := by
  by_cases hs : e.sender = ""
  · rw [runStep_empty_sender cfg store e hs]
    exact hnd
  · by_cases hres : isResetText cfg e.body = true
    · rw [runStep_reset cfg store e hs hres]
      exact List.nodup_nil
    · by_cases hstop : normalize e.body = "stop"
      · rw [runStep_stop cfg store e hnd hs hstop]
        exact nodupKeys_storePop _ _ (nodupKeys_webhookStore2 e.now store e.sender e.body hnd)
      · obtain ⟨sess3, hrs⟩ := runStep_other cfg store e hs (Bool.eq_false_iff.mpr hres) hstop
        rw [hrs]
        exact nodupKeys_storeSet _ _ _ (nodupKeys_webhookStore2 e.now store e.sender e.body hnd)

lemma runStep_hasKey (cfg : Config) (store : Store) (e : Event) (target : String)
    (hnd : nodupKeys store) (hs : e.sender ≠ "") :
    hasKey (runStep cfg store e) target =
      (if isResetText cfg e.body = true then false
       else if e.sender = target then !(normalize e.body == "stop")
       else hasKey store target) := by
  by_cases hres : isResetText cfg e.body = true
  · rw [runStep_reset cfg store e hs hres, if_pos hres]
    rfl
  · rw [if_neg hres]
    by_cases hstop : normalize e.body = "stop"
    · rw [runStep_stop cfg store e hnd hs hstop]
      by_cases ht : e.sender = target
      · rw [if_pos ht, hstop]
        unfold hasKey
        rw [← ht, lookupStore_storePop_self _ _
          (nodupKeys_webhookStore2 e.now store e.sender e.body hnd)]
        rfl
      · rw [if_neg ht]
        unfold hasKey
        rw [lookupStore_storePop_ne _ (fun hh => ht (hh.symm)),
          lookupStore_webhookStore2_ne e.now store e.sender e.body target
            (fun hh => ht (hh.symm))]
    · obtain ⟨sess3, hrs⟩ := runStep_other cfg store e hs (Bool.eq_false_iff.mpr hres) hstop
      rw [hrs]
      by_cases ht : e.sender = target
      · rw [if_pos ht]
        unfold hasKey
        rw [← ht, lookupStore_storeSet_self]
        simp [hstop]
      · rw [if_neg ht]
        unfold hasKey
        rw [lookupStore_storeSet_ne _ _ (fun hh => ht (hh.symm)),
          lookupStore_webhookStore2_ne e.now store e.sender e.body target
            (fun hh => ht (hh.symm))]

lemma nodupKeys_runTrace (cfg : Config) (trace : List Event) :
    nodupKeys (runTrace cfg trace) := by
  induction trace using List.reverseRecOn with
  | nil => exact List.nodup_nil
  | append_singleton tr e ih =>
    unfold runTrace at ih ⊢
    rw [List.foldl_append]
    exact nodupKeys_runStep cfg _ e ih

lemma runTrace_append (cfg : Config) (tr : List Event) (e : Event) :
    runTrace cfg (tr ++ [e]) = runStep cfg (runTrace cfg tr) e := by
  unfold runTrace
  rw [List.foldl_append]
  rfl

lemma isResetText_stop (cfg : Config) : isResetText cfg "stop" = false := by
  simp only [isResetText]
  rw [show pyStartsWith (normalize "stop") "admin " = false from by decide]
  simp

/-! ### Claim theorems -/

/-- C1: for every reachable state of the webhook step relation (starting from
the empty store, one step per POST), a session record exists in the store for
a sender identifier exactly when that sender has sent at least one message
with a non-empty sender identifier and, since that message, no `stop` of its
own and no successful `admin <passcode> reset` (from any sender) has
occurred. -/
theorem c1_session_invariant (cfg : Config) (trace : List Event) (target : String) :
    hasKey (runTrace cfg trace) target = sessionExpected cfg trace target := by
  induction trace using List.reverseRecOn with
  | nil => rfl
  | append_singleton tr e ih =>
    unfold sessionExpected at ih ⊢
    rw [runTrace_append cfg tr e]
    rw [show (tr ++ [e]).reverse = e :: tr.reverse from by simp]
    simp only [sessRev]
    by_cases hs : e.sender = ""
    · rw [runStep_empty_sender cfg _ e hs, if_pos hs]
      exact ih
    · rw [if_neg hs]
      rw [runStep_hasKey cfg (runTrace cfg tr) e target (nodupKeys_runTrace cfg tr) hs]
      by_cases hres : isResetText cfg e.body = true
      · rw [if_pos hres, if_pos hres]
      · rw [if_neg hres, if_neg hres]
        by_cases ht : e.sender = target
        · rw [if_pos ht, if_pos ht]
        · rw [if_neg ht, if_neg ht]
          exact ih

/-- C2: the first call to `session_for` for a sender creates and inserts
exactly one record, with empty context, empty history and no last intent;
a later call with the sender still present returns exactly the stored record
and leaves the store unchanged; and after a `stop` request the sender's
record is gone, so the next lookup creates a brand-new session with a fresh
`created_at` and empty history. -/
theorem c2_session_lifecycle (cfg : Config) (now1 now2 : Nat) (store : Store)
    (target : String) :
    (lookupStore store target = none →
      session_for now1 store target =
        (freshSession now1, store ++ [(target, freshSession now1)])) ∧
    (∀ s, lookupStore store target = some s → session_for now1 store target = (s, store)) ∧
    (nodupKeys store → target ≠ "" →
      lookupStore (runStep cfg store { sender := target, body := "stop", now := now1 })
        target = none ∧
      (session_for now2 (runStep cfg store { sender := target, body := "stop", now := now1 })
        target).1 = freshSession now2) := by
  refine ⟨?_, ?_, ?_⟩
  · intro h
    unfold session_for
    rw [h]
  · intro s h
    unfold session_for
    rw [h]
  · intro hnd hne
    have hkey : hasKey (runStep cfg store { sender := target, body := "stop", now := now1 })
        target = false := by
      rw [runStep_hasKey cfg store _ target hnd hne,
        if_neg (by rw [isResetText_stop cfg]; exact Bool.false_ne_true), if_pos rfl]
      show (!normalize "stop" == "stop") = false
      decide
    have hlook := hasKey_false_lookup _ _ hkey
    refine ⟨hlook, ?_⟩
    unfold session_for
    rw [hlook]

/-- C2 witness: concrete store with one other sender; first contact of "u"
appends a fresh record, and a `stop` request erases "u" again. -/
theorem c2_witness :
    session_for 3 [("v", freshSession 0)] "u" =
      (freshSession 3, [("v", freshSession 0), ("u", freshSession 3)]) ∧
    lookupStore (runStep cfgDemo [("v", freshSession 0)]
      { sender := "u", body := "stop", now := 1 }) "u" = none ∧
    (session_for 2 (runStep cfgDemo [("v", freshSession 0)]
      { sender := "u", body := "stop", now := 1 }) "u").1 = freshSession 2 :=
  ⟨(c2_session_lifecycle cfgDemo 3 0 [("v", freshSession 0)] "u").1 (by decide),
   ((c2_session_lifecycle cfgDemo 1 2 [("v", freshSession 0)] "u").2.2
     (by decide) (by decide)).1,
   ((c2_session_lifecycle cfgDemo 1 2 [("v", freshSession 0)] "u").2.2
     (by decide) (by decide)).2⟩

lemma trivial_intents_grievance_short (cfg : Config) (now : Nat) (text : String)
    (sess : Session) (store : Store)
    (hp : pyStartsWith (normalize text) "grievance " = true)
    (hlen : (pyStrip (strDropStr (pyStrip text) 10)).length < 4) :
    trivial_intents cfg now text sess store =
      some (some "Please include details: `grievance <name> <village> <issue>`",
        sess, store) := by
  obtain ⟨r, hr⟩ := exists_of_pyStartsWith hp
  have hr2 : (normalize text).data =
      'g' :: 'r' :: 'i' :: 'e' :: 'v' :: 'a' :: 'n' :: 'c' :: 'e' :: ' ' :: r := hr.trans rfl
  simp only [trivial_intents]
  rw [if_neg (by simp [String.ext_iff, hr2]),
      if_neg (by simp [String.ext_iff, hr2]),
      if_neg (by simp [String.ext_iff, hr2]),
      if_neg (by simp [String.ext_iff, hr2]),
      if_neg (by simp [String.ext_iff, hr2]),
      if_neg (by simp [String.ext_iff, hr2]),
      if_neg (by simp [pyStartsWith, hr2, List.isPrefixOf]),
      if_pos hp, if_pos hlen]

lemma trivial_intents_grievance_ticket (cfg : Config) (now : Nat) (text : String)
    (sess : Session) (store : Store)
    (hp : pyStartsWith (normalize text) "grievance " = true)
    (hlen : ¬ (pyStrip (strDropStr (pyStrip text) 10)).length < 4) :
    trivial_intents cfg now text sess store =
      some (some ("Thanks. Ticket *" ++ ("GRV" ++ pad5 (now % 100000)) ++
          "* created (demo).\n" ++ "You’ll receive an update after initial triage."),
        { sess with last_intent := some "grievance_ticket",
                    context := dictSet sess.context "last_ticket"
                      ("GRV" ++ pad5 (now % 100000)) }, store) := by
  obtain ⟨r, hr⟩ := exists_of_pyStartsWith hp
  have hr2 : (normalize text).data =
      'g' :: 'r' :: 'i' :: 'e' :: 'v' :: 'a' :: 'n' :: 'c' :: 'e' :: ' ' :: r := hr.trans rfl
  simp only [trivial_intents]
  rw [if_neg (by simp [String.ext_iff, hr2]),
      if_neg (by simp [String.ext_iff, hr2]),
      if_neg (by simp [String.ext_iff, hr2]),
      if_neg (by simp [String.ext_iff, hr2]),
      if_neg (by simp [String.ext_iff, hr2]),
      if_neg (by simp [String.ext_iff, hr2]),
      if_neg (by simp [pyStartsWith, hr2, List.isPrefixOf]),
      if_pos hp, if_neg hlen]

/-- C3: the normalizer collapses every whitespace run to a single space,
trims, and lower-cases (stated as: it preserves exactly the non-whitespace
content lower-cased, every whitespace character of the output is a single
space, no two adjacent whitespace characters remain, the output is trimmed
at both ends, and contains no upper-case ASCII); it is total by
construction, and intent matching is therefore case- and
whitespace-insensitive: every input normalizing to "menu" (such as
"  MENU  ", "Menu" and "menu") returns the main menu and sets
`last_intent` to "menu". -/
theorem c3_normalize_total_insensitive :
    (∀ t : String,
      (normalize t).data.filter (fun c => !isWs c) =
        (t.data.filter (fun c => !isWs c)).map lowerChar ∧
      (∀ c ∈ (normalize t).data, isWs c = true → c = ' ') ∧
      (normalize t).data.Chain' (fun a b => ¬(isWs a = true ∧ isWs b = true)) ∧
      (∀ c, (normalize t).data.head? = some c → isWs c = false) ∧
      (∀ c, (normalize t).data.getLast? = some c → isWs c = false) ∧
      (∀ c ∈ (normalize t).data, ¬(65 ≤ c.toNat ∧ c.toNat ≤ 90))) ∧
    normalize "  MENU  " = "menu" ∧ normalize "Menu" = "menu" ∧
    normalize "menu" = "menu" ∧
    (∀ (cfg : Config) (now : Nat) (text : String) (sess : Session) (store : Store),
      normalize text = "menu" →
      trivial_intents cfg now text sess store =
        some (some (small_menu cfg), { sess with last_intent := some "menu" }, store)) := by
  refine ⟨fun t => ⟨normalize_filter t, fun c hc hw => normalize_ws_eq_space t c hc hw,
    normalize_chain t, fun c hc => normalize_head_not_ws t c hc,
    fun c hc => normalize_getLast_not_ws t c hc, fun c hc => normalize_no_upper t c hc⟩,
    by decide, by decide, by decide,
    fun cfg now text sess store h => trivial_intents_menu cfg now text sess store h⟩

/-- C3 witness: the three spec inputs all yield the main menu on a fresh
session. -/
theorem c3_witness :
    trivial_intents cfgDemo 0 "  MENU  " (freshSession 0) [] =
      some (some (small_menu cfgDemo),
        { freshSession 0 with last_intent := some "menu" }, []) ∧
    trivial_intents cfgDemo 0 "Menu" (freshSession 0) [] =
      some (some (small_menu cfgDemo),
        { freshSession 0 with last_intent := some "menu" }, []) :=
  ⟨c3_normalize_total_insensitive.2.2.2.2 cfgDemo 0 "  MENU  " (freshSession 0) []
     (by decide),
   c3_normalize_total_insensitive.2.2.2.2 cfgDemo 0 "Menu" (freshSession 0) []
     (by decide)⟩

/-- C4: an input normalizing exactly to "status" takes the exact rule 3
(status instructions, `last_intent = "status"`), never the prefix rule; the
prefix rule fires exactly on normalized inputs that strictly extend
"status " (the normalized form is trimmed, so it is always strictly longer
than 7 characters), and then performs the lookup and sets
`last_intent = "status_lookup"`. -/
theorem c4_exact_rules_first (cfg : Config) (now : Nat) (text : String)
    (sess : Session) (store : Store) :
    (normalize text = "status" →
      trivial_intents cfg now text sess store =
        some (some "Send: `status <APPLICATION_ID>`\nExample: `status PMAY123`",
          { sess with last_intent := some "status" }, store)) ∧
    (pyStartsWith (normalize text) "status " = true →
      7 < (normalize text).length ∧
      trivial_intents cfg now text sess store =
        some (some (status_lookup (pyStrip (strDropStr (normalize text) 7))),
          { sess with last_intent := some "status_lookup" }, store)) := by
  refine ⟨fun h => trivial_intents_status_exact cfg now text sess store h,
    fun h => ⟨?_, trivial_intents_status_lookup cfg now text sess store h⟩⟩
  obtain ⟨r, hr⟩ := exists_of_pyStartsWith h
  have hr2 : (normalize text).data = 's' :: 't' :: 'a' :: 't' :: 'u' :: 's' :: ' ' :: r :=
    hr.trans rfl
  cases hcr : r with
  | nil =>
    exfalso
    have hlast : (normalize text).data.getLast? = some ' ' := by
      rw [hr2, hcr]
      rfl
    have hws := normalize_getLast_not_ws text ' ' hlast
    rw [isWs_space] at hws
    exact Bool.noConfusion hws
  | cons c0 rs =>
    show 7 < (normalize text).length
    have hlen : (normalize text).length = (normalize text).data.length := rfl
    rw [hlen, hr2, hcr]
    simp only [List.length_cons]
    omega

/-- C4 witness: "status" yields the instructions; "status PMAY123" reaches
the prefix lookup with a normalized form longer than "status ". -/
theorem c4_witness :
    trivial_intents cfgDemo 0 "status" (freshSession 0) [] =
      some (some "Send: `status <APPLICATION_ID>`\nExample: `status PMAY123`",
        { freshSession 0 with last_intent := some "status" }, []) ∧
    7 < (normalize "status PMAY123").length ∧
    trivial_intents cfgDemo 0 "status PMAY123" (freshSession 0) [] =
      some (some (status_lookup (pyStrip (strDropStr (normalize "status PMAY123") 7))),
        { freshSession 0 with last_intent := some "status_lookup" }, []) :=
  ⟨(c4_exact_rules_first cfgDemo 0 "status" (freshSession 0) []).1 (by decide),
   ((c4_exact_rules_first cfgDemo 0 "status PMAY123" (freshSession 0) []).2
     (by decide)).1,
   ((c4_exact_rules_first cfgDemo 0 "status PMAY123" (freshSession 0) []).2
     (by decide)).2⟩

/-- C5 counterexample: on input "status UNKNOWN1" the reply does NOT contain
the literal id `UNKNOWN1` — normalization lower-cases the text before the id
is extracted, so the echoed id is `unknown1`. -/
theorem c5_counterexample :
    trivial_intents cfgDemo 0 "status UNKNOWN1" (freshSession 0) [] =
      some (some "No record found for *unknown1*. Check the ID and try again.",
        { freshSession 0 with last_intent := some "status_lookup" }, []) ∧
    containsSubStr "UNKNOWN1"
      "No record found for *unknown1*. Check the ID and try again." = false := by
  constructor
  · decide
  · decide

/-- C5 (amended): an input normalizing to "status pmay123" (any casing of
"status PMAY123") returns the under-review status text for that id; an input
normalizing to "status unknown1" returns a no-record message containing the
id in its lower-cased form `unknown1`; both set `last_intent` to
"status_lookup". -/
theorem c5_status_lookup_examples (cfg : Config) (now : Nat) (sess : Session)
    (store : Store) (text1 text2 : String) :
    (normalize text1 = "status pmay123" →
      trivial_intents cfg now text1 sess store =
        some (some "*Status for pmay123:* Under review\nNote: Verification within 7 days",
          { sess with last_intent := some "status_lookup" }, store)) ∧
    (normalize text2 = "status unknown1" →
      trivial_intents cfg now text2 sess store =
        some (some "No record found for *unknown1*. Check the ID and try again.",
          { sess with last_intent := some "status_lookup" }, store) ∧
      containsSubStr "unknown1"
        "No record found for *unknown1*. Check the ID and try again." = true) := by
  constructor
  · intro h
    rw [trivial_intents_status_lookup cfg now text1 sess store (by rw [h]; decide), h]
    rfl
  · intro h
    refine ⟨?_, by decide⟩
    rw [trivial_intents_status_lookup cfg now text2 sess store (by rw [h]; decide), h]
    rfl

/-- C5 witness: the two concrete inputs of the spec, in original casing. -/
theorem c5_witness :
    trivial_intents cfgDemo 0 "status PMAY123" (freshSession 0) [] =
      some (some "*Status for pmay123:* Under review\nNote: Verification within 7 days",
        { freshSession 0 with last_intent := some "status_lookup" }, []) ∧
    trivial_intents cfgDemo 0 "status UNKNOWN1" (freshSession 0) [] =
      some (some "No record found for *unknown1*. Check the ID and try again.",
        { freshSession 0 with last_intent := some "status_lookup" }, []) :=
  ⟨(c5_status_lookup_examples cfgDemo 0 (freshSession 0) [] "status PMAY123" "x").1
     (by decide),
   ((c5_status_lookup_examples cfgDemo 0 (freshSession 0) [] "x" "status UNKNOWN1").2
     (by decide)).1⟩

/-- C6: for an input whose normalized form starts with "grievance ", a
stripped payload (taken from the original, non-normalized text) of fewer
than 4 characters returns the format-help message with the session left
unchanged; otherwise the reply confirms a ticket `GRV` + (now mod 100000)
zero-padded to five digits, the ticket is stored in
`context["last_ticket"]`, and `last_intent` becomes "grievance_ticket"; the
padded part always consists of exactly 5 decimal digits. -/
theorem c6_grievance (cfg : Config) (now : Nat) (text : String) (sess : Session)
    (store : Store) (hp : pyStartsWith (normalize text) "grievance " = true) :
    ((pyStrip (strDropStr (pyStrip text) 10)).length < 4 →
      trivial_intents cfg now text sess store =
        some (some "Please include details: `grievance <name> <village> <issue>`",
          sess, store)) ∧
    (4 ≤ (pyStrip (strDropStr (pyStrip text) 10)).length →
      trivial_intents cfg now text sess store =
        some (some ("Thanks. Ticket *" ++ ("GRV" ++ pad5 (now % 100000)) ++
            "* created (demo).\n" ++ "You’ll receive an update after initial triage."),
          { sess with last_intent := some "grievance_ticket",
                      context := dictSet sess.context "last_ticket"
                        ("GRV" ++ pad5 (now % 100000)) }, store)) ∧
    (pad5 (now % 100000)).length = 5 ∧
    (∀ c ∈ (pad5 (now % 100000)).data, isDigitCh c = true) := by
  refine ⟨fun h => trivial_intents_grievance_short cfg now text sess store hp h,
    fun h => trivial_intents_grievance_ticket cfg now text sess store hp (by omega),
    pad5_length (now % 100000) (Nat.mod_lt now (by norm_num)),
    fun c hc => pad5_digits (now % 100000) c hc⟩

/-- C6 witness: "grievance ab" (payload length 2) yields the format help and
leaves the session untouched; the spec's long grievance creates the padded
ticket and stores it in the context. -/
theorem c6_witness :
    trivial_intents cfgDemo 0 "grievance ab" (freshSession 0) [] =
      some (some "Please include details: `grievance <name> <village> <issue>`",
        freshSession 0, []) ∧
    trivial_intents cfgDemo 123 "grievance Priya Pal Khadakde water issue"
      (freshSession 0) [] =
      some (some ("Thanks. Ticket *" ++ ("GRV" ++ pad5 (123 % 100000)) ++
          "* created (demo).\n" ++ "You’ll receive an update after initial triage."),
        { freshSession 0 with
          last_intent := some "grievance_ticket",
          context := dictSet (freshSession 0).context "last_ticket"
            ("GRV" ++ pad5 (123 % 100000)) }, []) ∧
    (pad5 (123 % 100000)).length = 5 :=
  ⟨(c6_grievance cfgDemo 0 "grievance ab" (freshSession 0) [] (by decide)).1 (by decide),
   (c6_grievance cfgDemo 123 "grievance Priya Pal Khadakde water issue"
     (freshSession 0) [] (by decide)).2.1 (by decide),
   (c6_grievance cfgDemo 123 "grievance Priya Pal Khadakde water issue"
     (freshSession 0) [] (by decide)).2.2.1⟩

/-- C7: admin line handling — fewer than 3 whitespace tokens yields the usage
text; a second token differing from the configured passcode (exact,
case-sensitive comparison) yields the invalid-passcode reply with the store
untouched, also end-to-end for the message "admin wrongpass ping"; with the
correct passcode, "ping" acknowledges, "stats" reports the current session
count, "reset" empties the whole store (so a following "stats" reports 0),
and any other subcommand is unknown. -/
theorem c7_admin_ops (cfg : Config) (store : Store) (parts : List String) :
    (parts.length < 3 →
      admin_ops cfg parts store =
        some ("Usage: admin <passcode> <ping|stats|reset>", store)) ∧
    (∀ a given cmd rest, parts = a :: given :: cmd :: rest →
      given ≠ cfg.admin_passcode →
      admin_ops cfg parts store = some ("Admin: invalid passcode.", store)) ∧
    (∀ a cmd rest, parts = a :: cfg.admin_passcode :: cmd :: rest →
      (cmd = "ping" → admin_ops cfg parts store = some ("pong ✅", store)) ∧
      (cmd = "stats" →
        admin_ops cfg parts store = some ("Sessions: " ++ natRepr store.length, store)) ∧
      (cmd = "reset" →
        admin_ops cfg parts store = some ("All sessions cleared.", []) ∧
        admin_ops cfg (a :: cfg.admin_passcode :: "stats" :: rest) [] =
          some ("Sessions: 0", [])) ∧
      (cmd ≠ "ping" → cmd ≠ "stats" → cmd ≠ "reset" →
        admin_ops cfg parts store = some ("Unknown admin command.", store))) ∧
    (∀ (now : Nat) (sess : Session) (text : String), cfg.admin_passcode ≠ "wrongpass" →
      normalize text = "admin wrongpass ping" →
      trivial_intents cfg now text sess store =
        some (some "Admin: invalid passcode.", sess, store)) := by
  refine ⟨?_, ?_, ?_, ?_⟩
  · intro h
    unfold admin_ops
    rw [if_pos h]
  · intro a given cmd rest hp hne
    subst hp
    unfold admin_ops
    rw [if_neg (by simp only [List.length_cons]; omega),
      show (a :: given :: cmd :: rest)[1]? = some given from rfl]
    simp [hne]
  · intro a cmd rest hp
    subst hp
    refine ⟨?_, ?_, ?_, ?_⟩
    · intro hcmd
      subst hcmd
      unfold admin_ops
      rw [if_neg (by simp only [List.length_cons]; omega),
        show (a :: cfg.admin_passcode :: "ping" :: rest)[1]? = some cfg.admin_passcode
          from rfl,
        show (a :: cfg.admin_passcode :: "ping" :: rest)[2]? = some "ping" from by simp]
      simp
    · intro hcmd
      subst hcmd
      unfold admin_ops
      rw [if_neg (by simp only [List.length_cons]; omega),
        show (a :: cfg.admin_passcode :: "stats" :: rest)[1]? = some cfg.admin_passcode
          from rfl,
        show (a :: cfg.admin_passcode :: "stats" :: rest)[2]? = some "stats" from by simp]
      simp
    · intro hcmd
      subst hcmd
      constructor
      · unfold admin_ops
        rw [if_neg (by simp only [List.length_cons]; omega),
          show (a :: cfg.admin_passcode :: "reset" :: rest)[1]? = some cfg.admin_passcode
            from rfl,
          show (a :: cfg.admin_passcode :: "reset" :: rest)[2]? = some "reset" from by simp]
        simp
      · have h2 : admin_ops cfg (a :: cfg.admin_passcode :: "stats" :: rest) [] =
            some ("Sessions: " ++ natRepr 0, []) := by
          unfold admin_ops
          rw [if_neg (by simp only [List.length_cons]; omega),
            show (a :: cfg.admin_passcode :: "stats" :: rest)[1]? =
              some cfg.admin_passcode from rfl,
            show (a :: cfg.admin_passcode :: "stats" :: rest)[2]? = some "stats" from by simp]
          simp
        rw [h2]
        decide
    · intro h1 h2 h3
      unfold admin_ops
      rw [if_neg (by simp only [List.length_cons]; omega),
        show (a :: cfg.admin_passcode :: cmd :: rest)[1]? = some cfg.admin_passcode
          from rfl,
        show (a :: cfg.admin_passcode :: cmd :: rest)[2]? = some cmd from by simp]
      simp [h1, h2, h3]
  · intro now sess text hpass hnorm
    have hsplit : pySplit "admin wrongpass ping" = ["admin", "wrongpass", "ping"] := by
      decide
    have hao : admin_ops cfg ["admin", "wrongpass", "ping"] store =
        some ("Admin: invalid passcode.", store) := by
      unfold admin_ops
      rw [if_neg (by simp),
        show (["admin", "wrongpass", "ping"] : List String)[1]? = some "wrongpass"
          from rfl]
      simp [Ne.symm hpass]
    simp [trivial_intents, hnorm, pyStartsWith, List.isPrefixOf, hsplit, hao]

/-- C7 witness: concrete admin interactions under the default passcode. -/
theorem c7_witness :
    admin_ops cfgDemo ["admin"] [] =
      some ("Usage: admin <passcode> <ping|stats|reset>", []) ∧
    admin_ops cfgDemo ["admin", "wrongpass", "ping"] [("u", freshSession 0)] =
      some ("Admin: invalid passcode.", [("u", freshSession 0)]) ∧
    admin_ops cfgDemo ["admin", "1234", "stats"] [("u", freshSession 0)] =
      some ("Sessions: " ++ natRepr [("u", freshSession 0)].length,
        [("u", freshSession 0)]) ∧
    admin_ops cfgDemo ["admin", "1234", "reset"] [("u", freshSession 0)] =
      some ("All sessions cleared.", []) ∧
    admin_ops cfgDemo ["admin", "1234", "stats"] [] = some ("Sessions: 0", []) ∧
    trivial_intents cfgDemo 0 "admin wrongpass ping" (freshSession 0)
      [("u", freshSession 0)] =
      some (some "Admin: invalid passcode.", freshSession 0, [("u", freshSession 0)]) :=
  ⟨(c7_admin_ops cfgDemo [] ["admin"]).1 (by decide),
   (c7_admin_ops cfgDemo [("u", freshSession 0)] ["admin", "wrongpass", "ping"]).2.1
     "admin" "wrongpass" "ping" [] rfl (by decide),
   ((c7_admin_ops cfgDemo [("u", freshSession 0)] ["admin", "1234", "stats"]).2.2.1
     "admin" "stats" [] rfl).2.1 rfl,
   (((c7_admin_ops cfgDemo [("u", freshSession 0)] ["admin", "1234", "reset"]).2.2.1
     "admin" "reset" [] rfl).2.2.1 rfl).1,
   (((c7_admin_ops cfgDemo [("u", freshSession 0)] ["admin", "1234", "reset"]).2.2.1
     "admin" "reset" [] rfl).2.2.1 rfl).2,
   (c7_admin_ops cfgDemo [("u", freshSession 0)] ["x"]).2.2.2 0 (freshSession 0)
     "admin wrongpass ping" (by decide) (by decide)⟩

/-- C8: with no backend configured, or a backend call that raises, the AI
adapter returns the empty string (the failure never escapes); end-to-end, a
message matched by no router rule then yields exactly the generic
"didn't catch that" text followed by the static menu. -/
theorem c8_adapter_failure_absorbed (cfg : Config) (body : String)
    (hfail : cfg.backend = none ∨
      ∃ f, cfg.backend = some f ∧ f body = Except.error ()) :
    (∀ s : Session, ai_answer cfg body s = "") ∧
    (routerUnmatched body = true → ∀ (now : Nat) (store : Store) (wa_from : String),
      wa_from ≠ "" →
      whatsapp_webhook cfg now store wa_from body =
        some (some ("I didn’t catch that. Here’s the menu:\n\n" ++ small_menu cfg),
          storeSet (webhookStore2 now store wa_from body) wa_from
            { webhookSess1 now store wa_from body with
              history := (webhookSess1 now store wa_from body).history ++
                [("bot", "I didn’t catch that. Here’s the menu:\n\n" ++
                  small_menu cfg)] })) := by
  have hai : ∀ s : Session, ai_answer cfg body s = "" := by
    intro s
    unfold ai_answer
    rcases hfail with h | ⟨f, hf, he⟩
    · rw [h]
    · rw [hf]
      show (match f body with
        | Except.error _ => ""
        | Except.ok content => pyStrip (content.getD "")) = ""
      rw [he]
  refine ⟨hai, ?_⟩
  intro hun now store wa_from hw
  have hTI := trivial_intents_unmatched cfg now body (webhookSess1 now store wa_from body)
    (webhookStore2 now store wa_from body) hun
  rw [whatsapp_webhook_eq cfg now store wa_from body hw none
    (webhookSess1 now store wa_from body) (webhookStore2 now store wa_from body) hTI]
  have hmsg : webhookMsg2 cfg body none (webhookSess1 now store wa_from body) =
      "I didn’t catch that. Here’s the menu:\n\n" ++ small_menu cfg := by
    simp [webhookMsg2, pyFalsy, hai]
  rw [hmsg, if_pos (hasKey_webhookStore2_self now store wa_from body)]

/-- C8 witness: with no backend, the unmatched input "what is the weather"
yields exactly the generic fallback plus menu. -/
theorem c8_witness :
    ai_answer cfgDemo "what is the weather" (freshSession 0) = "" ∧
    whatsapp_webhook cfgDemo 0 [] "u" "what is the weather" =
      some (some ("I didn’t catch that. Here’s the menu:\n\n" ++ small_menu cfgDemo),
        storeSet (webhookStore2 0 [] "u" "what is the weather") "u"
          { webhookSess1 0 [] "u" "what is the weather" with
            history := (webhookSess1 0 [] "u" "what is the weather").history ++
              [("bot", "I didn’t catch that. Here’s the menu:\n\n" ++
                small_menu cfgDemo)] }) :=
  ⟨(c8_adapter_failure_absorbed cfgDemo "what is the weather" (Or.inl rfl)).1
     (freshSession 0),
   (c8_adapter_failure_absorbed cfgDemo "what is the weather" (Or.inl rfl)).2
     (by decide) 0 [] "u" (by decide)⟩

/-- C9: a request with an empty sender identifier is rejected (HTTP 400,
modelled as a `none` reply) before any session work, and the store is
returned completely unchanged. -/
theorem c9_missing_sender_rejected (cfg : Config) (now : Nat) (store : Store)
    (body : String) :
    whatsapp_webhook cfg now store "" body = some (none, store) := by
  unfold whatsapp_webhook
  rw [if_pos rfl]

/-- C10: the intent router is total — on every input string and session it
returns (a reply or nothing) and never reaches an unguarded index (the
`none` that models an exception is impossible); the normalizer is defined on
empty and whitespace-only input, where it returns the empty string. -/
theorem c10_router_total (cfg : Config) (now : Nat) (text : String) (sess : Session)
    (store : Store) :
    (trivial_intents cfg now text sess store).isSome = true ∧
    normalize "" = "" ∧
    (∀ s : String, (∀ c ∈ s.data, isWs c = true) → normalize s = "") := by
  refine ⟨?_, rfl, fun s h => normalize_all_ws s h⟩
  by_cases hres : isResetText cfg text = true
  · rw [trivial_intents_reset cfg now text sess store hres]
    rfl
  · by_cases hstop : normalize text = "stop"
    · rw [trivial_intents_stop cfg now text sess store hstop]
      rfl
    · obtain ⟨m, s2, hm⟩ := trivial_intents_other cfg now text sess store
        (Bool.eq_false_iff.mpr hres) hstop
      rw [hm]
      rfl

/-- C10 witness: an arbitrary unmatched input returns, and a whitespace-only
input normalizes to the empty string. -/
theorem c10_witness :
    (trivial_intents cfgDemo 0 "xyzzy" (freshSession 0) []).isSome = true ∧
    normalize "   " = "" :=
  ⟨(c10_router_total cfgDemo 0 "xyzzy" (freshSession 0) []).1,
   (c10_router_total cfgDemo 0 "xyzzy" (freshSession 0) []).2.2 "   " (by decide)⟩

end App
